import Mathlib

/-!
Verification of the text-embeddings-inference front-end core.

This file shallowly embeds the two source files of the repository:
  * `src/router/src/lib.rs` — the input-shape normalizer (the hand-written
    serde `Deserialize` implementation for `PredictInput`) and the request
    structs with their serde defaults;
  * `src/lambda/src/main.rs` — the bootstrap sequence `setup_infer`
    (config resolution, tokenizer patching, backend health check, queue and
    engine construction) and the lambda request `handler`.

Rust `usize` values are modelled as `Nat`, with underflow of `-` made
explicit where it matters.  Fallible Rust code returns `Except`/sum types.
-/

namespace TEI

/-! ## Router data model (src/router/src/lib.rs, lines 66-94) -/

/-- Mirrors `enum Sequence { Single(String), Pair(String, String) }`. -/
inductive Sequence
  | single (s : String)
  | pair (first second : String)
deriving DecidableEq

/-- Mirrors `enum PredictInput { Single(Sequence), Batch(Vec<Sequence>) }`. -/
inductive PredictInput
  | single (s : Sequence)
  | batch (b : List Sequence)
deriving DecidableEq

/-- One element of the top-level JSON array handed to `visit_seq`.  The
visitor deserializes each element either as the untagged
`Internal::Single(String)` (a bare text) or `Internal::Multiple(Vec<String>)`
(an inner sequence of texts); these are the only element shapes the claims
quantify over. -/
inductive JsonItem
  | str (s : String)
  | arr (v : List String)
deriving DecidableEq

/-- The top-level payload given to `deserialize_any`: either a bare string
(dispatched to `visit_str`) or a sequence (dispatched to `visit_seq`). -/
inductive RawPayload
  | str (s : String)
  | seq (items : List JsonItem)
deriving DecidableEq

/-- The serde errors the visitor can produce: `de::Error::invalid_length`
carrying the reported length, or a type mismatch raised when an element
fails to deserialize at the expected type (e.g. a nested array read as a
`String`). -/
inductive DeError
  | invalidLength (n : Nat)
  | invalidType
deriving DecidableEq

/-- Mirrors the closure `sequence_from_vec` (lib.rs lines 132-145): a vec of
length 1 becomes `Single`, length 2 becomes `Pair(first, second)` (the last
element popped is the second of the pair), anything else is
`invalid_length(value.len())`. -/
def sequence_from_vec : List String → Except DeError Sequence
  | [a] => .ok (.single a)
  | [first, second] => .ok (.pair first second)
  | v => .error (.invalidLength v.length)

/-- Models `seq.next_element::<String>()` on one present element: a bare
text deserializes, an inner array is a type error. -/
def readString : JsonItem → Except DeError String
  | .str s => .ok s
  | .arr _ => .error .invalidType

/-- Models `seq.next_element::<Vec<String>>()` on one present element: an
inner array deserializes, a bare text is a type error. -/
def readVec : JsonItem → Except DeError (List String)
  | .arr v => .ok v
  | .str _ => .error .invalidType

/-- Mirrors the `while let Some(value) = seq.next_element::<Vec<String>>()?`
loop of `visit_seq` (lib.rs lines 182-187): every remaining element is read
as a vec of strings, validated by `sequence_from_vec`, and pushed in order. -/
def batch_loop : List JsonItem → Except DeError (List Sequence)
  | [] => .ok []
  | item :: rest =>
    match readVec item with
    | .error e => .error e
    | .ok v =>
      match sequence_from_vec v with
      | .error e => .error e
      | .ok s =>
        match batch_loop rest with
        | .error e => .error e
        | .ok tail => .ok (s :: tail)

/-- Mirrors `PredictInputVisitor::visit_seq` (lib.rs lines 128-189).  The
first element decides the interpretation: a bare text means the payload is a
single `Sequence` (at most two bare texts allowed, a third present element
is `invalid_length(3)`); an inner array means the payload is a batch whose
first element is validated by `sequence_from_vec` and whose remaining
elements are consumed by the batch loop.  An empty payload is
`invalid_length(0)`. -/
def visit_seq : List JsonItem → Except DeError PredictInput
  | [] => .error (.invalidLength 0)
  | first :: rest =>
    match first with
    | .str value =>
      match rest with
      | [] => .ok (.single (.single value))
      | second_item :: rest2 =>
        match readString second_item with
        | .error e => .error e
        | .ok second =>
          match rest2 with
          | [] => .ok (.single (.pair value second))
          | third_item :: _ =>
            match readString third_item with
            | .error e => .error e
            | .ok _ => .error (.invalidLength 3)
    | .arr value =>
      match sequence_from_vec value with
      | .error e => .error e
      | .ok s =>
        match batch_loop rest with
        | .error e => .error e
        | .ok tail => .ok (.batch (s :: tail))

/-- Mirrors `<PredictInput as Deserialize>::deserialize` via
`deserialize_any`: a bare string goes to `visit_str` (lib.rs lines 121-126),
a sequence goes to `visit_seq`. -/
def predict_input_deserialize : RawPayload → Except DeError PredictInput
  | .str s => .ok (.single (.single s))
  | .seq items => visit_seq items

end TEI

/-! ## Claim theorems for the normalizer -/

namespace TEI

/-- Claim C1: for every text `a` and pair `(a, b)`, normalizing the bare
text `a` yields `Single(a)`, normalizing the one-element sequence `[a]`
yields `Single(a)`, and normalizing `[a, b]` yields `Pair(a, b)` with `a`
first and `b` second, with no reordering. -/
theorem predict_input_single_and_pair (a b : String) :
    predict_input_deserialize (.str a) = .ok (.single (.single a)) ∧
    predict_input_deserialize (.seq [.str a]) = .ok (.single (.single a)) ∧
    predict_input_deserialize (.seq [.str a, .str b]) =
      .ok (.single (.pair a b)) :=
  ⟨rfl, rfl, rfl⟩

/-- Claim C3: for all texts `a b c d`, normalizing `[[a],[b,c],[d]]` yields
`Batch([Single(a), Pair(b,c), Single(d)])`: a batch may mix one-element and
two-element inner sequences, every element is kept, and batch order equals
input order. -/
theorem predict_input_heterogeneous_batch (a b c d : String) :
    predict_input_deserialize (.seq [.arr [a], .arr [b, c], .arr [d]]) =
      .ok (.batch [.single a, .pair b c, .single d]) :=
  rfl

/-! ### Exact characterization of the invalid-length failures (claim C2)

The visitor reads elements left to right and stops at the first failure.
An `invalid_length` error therefore arises exactly when the first failing
read is a length check, not a type mismatch.  The two predicates below
restate that condition structurally, to be compared with the visitor. -/

/-- Restates, for the batch loop, when the first offending element (reading
left to right) is an inner sequence of invalid length: a bare text element
encountered first fails with a type error instead. -/
def batch_tail_arity : List JsonItem → Bool
  | [] => false
  | .str _ :: _ => false
  | .arr v :: rest =>
    if v.length = 1 ∨ v.length = 2 then batch_tail_arity rest else true

/-- Restates the exact set of payloads on which normalization fails with an
`invalid_length` error: the empty sequence; a sequence whose first three
elements are bare texts; a sequence starting with an inner sequence in
which an invalid-length inner sequence occurs before any bare-text
element. -/
def arity_error_payload : RawPayload → Bool
  | .str _ => false
  | .seq [] => true
  | .seq (.str _ :: .str _ :: .str _ :: _) => true
  | .seq (.str _ :: _) => false
  | .seq (.arr v :: rest) =>
    if v.length = 1 ∨ v.length = 2 then batch_tail_arity rest else true

theorem batch_loop_arity (rest : List JsonItem) :
    (∃ n, batch_loop rest = .error (.invalidLength n)) ↔
      batch_tail_arity rest = true := by
  induction rest with
  | nil => simp [batch_loop, batch_tail_arity]
  | cons item rest ih =>
    cases item with
    | str s => simp [batch_loop, batch_tail_arity, readVec]
    | arr v =>
      match v with
      | [] => simp [batch_loop, batch_tail_arity, readVec, sequence_from_vec]
      | [a] =>
        simp only [batch_loop, readVec, sequence_from_vec]
        rw [show batch_tail_arity (JsonItem.arr [a] :: rest) =
          batch_tail_arity rest from rfl, ← ih]
        cases h : batch_loop rest with
        | error e => simp [h]
        | ok tail => simp [h]
      | [a, b] =>
        simp only [batch_loop, readVec, sequence_from_vec]
        rw [show batch_tail_arity (JsonItem.arr [a, b] :: rest) =
          batch_tail_arity rest from rfl, ← ih]
        cases h : batch_loop rest with
        | error e => simp [h]
        | ok tail => simp [h]
      | a :: b :: c :: t =>
        simp only [batch_loop, batch_tail_arity, readVec, sequence_from_vec]
        constructor
        · intro _
          have hlen : ¬((t.length + 3) = 1 ∨ (t.length + 3) = 2) := by omega
          simp [List.length, hlen]
        · intro _
          exact ⟨(a :: b :: c :: t).length, rfl⟩

/-- Claim C2, counterexample: the payload `[["a"], "b", ["c","d","e"]]` is a
batch (its first element is a sequence) containing an element of length
three, so the claim requires an arity error; the code instead fails with a
type error when it reads the bare text `"b"` as a `Vec<String>`. -/
theorem arity_error_mixed_batch_counterexample :
    predict_input_deserialize
        (.seq [.arr ["a"], .str "b", .arr ["c", "d", "e"]]) =
      .error .invalidType ∧
    ∀ n, predict_input_deserialize
        (.seq [.arr ["a"], .str "b", .arr ["c", "d", "e"]]) ≠
      .error (.invalidLength n) := by
  refine ⟨rfl, ?_⟩
  intro n h
  rw [show predict_input_deserialize
      (.seq [.arr ["a"], .str "b", .arr ["c", "d", "e"]]) =
    .error .invalidType from rfl] at h
  simp at h

/-- Claim C2, amended: normalization fails with an invalid-length (arity)
error, and never returns a `PredictInput`, exactly for: the empty top-level
sequence; any top-level sequence whose first three elements are bare text
values; and any top-level sequence starting with an inner sequence in which
an inner sequence of length zero or three-plus occurs before any bare-text
element (bare-text elements inside a batch yield a type error instead). -/
theorem arity_error_exact_characterization (p : RawPayload) :
    (∃ n, predict_input_deserialize p = .error (.invalidLength n)) ↔
      arity_error_payload p = true := by
  cases p with
  | str s => simp [predict_input_deserialize, arity_error_payload]
  | seq items =>
    cases items with
    | nil =>
      refine ⟨fun _ => rfl, fun _ => ⟨0, rfl⟩⟩
    | cons first rest =>
      cases first with
      | str a =>
        cases rest with
        | nil => simp [predict_input_deserialize, visit_seq, arity_error_payload]
        | cons second_item rest2 =>
          cases second_item with
          | arr w =>
            simp [predict_input_deserialize, visit_seq, arity_error_payload,
              readString]
          | str b =>
            cases rest2 with
            | nil =>
              simp [predict_input_deserialize, visit_seq, arity_error_payload,
                readString]
            | cons third_item rest3 =>
              cases third_item with
              | str c =>
                refine ⟨fun _ => rfl, fun _ => ⟨3, rfl⟩⟩
              | arr w =>
                simp [predict_input_deserialize, visit_seq, arity_error_payload,
                  readString]
      | arr v =>
        have hloop := batch_loop_arity rest
        match v with
        | [] =>
          refine ⟨fun _ => rfl, fun _ => ⟨0, rfl⟩⟩
        | [a] =>
          simp only [predict_input_deserialize, visit_seq, sequence_from_vec]
          rw [show arity_error_payload (.seq (JsonItem.arr [a] :: rest)) =
            batch_tail_arity rest from rfl, ← hloop]
          cases h : batch_loop rest with
          | error e => simp [h]
          | ok tail => simp [h]
        | [a, b] =>
          simp only [predict_input_deserialize, visit_seq, sequence_from_vec]
          rw [show arity_error_payload (.seq (JsonItem.arr [a, b] :: rest)) =
            batch_tail_arity rest from rfl, ← hloop]
          cases h : batch_loop rest with
          | error e => simp [h]
          | ok tail => simp [h]
        | a :: b :: c :: t =>
          simp only [predict_input_deserialize, visit_seq, sequence_from_vec,
            arity_error_payload]
          constructor
          · intro _
            have hlen : ¬((t.length + 3) = 1 ∨ (t.length + 3) = 2) := by omega
            simp [List.length, hlen]
          · intro _
            exact ⟨(a :: b :: c :: t).length, rfl⟩

/-! ## Config resolution (src/lambda/src/main.rs, lines 16-25 and 114-123) -/

/-- Mirrors `struct ModelConfig` (main.rs lines 16-25); the label maps are
modelled as association lists. -/
structure ModelConfig where
  architectures : List String
  model_type : String
  max_position_embeddings : Nat
  pad_token_id : Nat
  id2label : Option (List (String × String))
  label2id : Option (List (String × Nat))
deriving DecidableEq

/-- Mirrors the `position_offset` computation (main.rs lines 114-122): the
offset is `pad_token_id + 1` exactly for the three model types named in the
condition, otherwise 0. -/
def position_offset (config : ModelConfig) : Nat :=
  if config.model_type = "xlm-roberta" ∨ config.model_type = "camembert" ∨
      config.model_type = "roberta" then
    config.pad_token_id + 1
  else
    0

/-- Outcome of `max_position_embeddings - position_offset` on `usize`
(main.rs line 123): a value when no underflow occurs, otherwise a panic in
a debug build or a two-complement wrap in a release build — in neither
build an `Err` return. -/
inductive LimitsOutcome
  | ok (position_offset max_input_length : Nat)
  | underflow
deriving DecidableEq

/-- Models the Rust `usize` subtraction, making underflow explicit. -/
def usize_sub (a b : Nat) : Except Unit Nat :=
  if b ≤ a then .ok (a - b) else .error ()

/-- The limits computed by `setup_infer` from a parsed config (main.rs
lines 114-123): `position_offset` followed by the unchecked `usize`
subtraction producing `max_input_length`.  No validation of the result
exists in the code. -/
def resolve_limits (config : ModelConfig) : LimitsOutcome :=
  match usize_sub config.max_position_embeddings (position_offset config) with
  | .ok max_input_length => .ok (position_offset config) max_input_length
  | .error _ => .underflow

/-- The fixed allow-list of model types that reserve leading position ids,
as the spec describes the condition of main.rs lines 115-118. -/
def offset_model_types : List String := ["xlm-roberta", "camembert", "roberta"]

/-- Claim C4, counterexample: for the descriptor with `model_type`
"roberta", capacity 514 and `pad_token_id` 513, the computed
`max_input_length` would be `514 - 514 = 0`, so the claim requires a
descriptor error; the code instead succeeds with `max_input_length = 0`.
With capacity 2 and `pad_token_id` 2 the subtraction underflows (panic or
wrap), again without returning an error. -/
theorem resolve_limits_no_zero_check_counterexample :
    resolve_limits ⟨["RobertaModel"], "roberta", 514, 513, none, none⟩ =
      .ok 514 0 ∧
    position_offset ⟨["RobertaModel"], "roberta", 514, 513, none, none⟩ =
      514 ∧
    resolve_limits ⟨["RobertaModel"], "roberta", 2, 2, none, none⟩ =
      .underflow := by
  refine ⟨?_, ?_, ?_⟩ <;> rfl

/-- Claim C4, amended: config resolution never returns a descriptor error
when the computed `max_input_length` would be zero or negative: whenever
the positional offset is at most the declared capacity it succeeds — with
`max_input_length = 0` allowed — and whenever the offset exceeds the
capacity the `usize` subtraction underflows (panic in a debug build, wrap
in a release build) instead of returning an error. -/
theorem resolve_limits_unchecked (config : ModelConfig) :
    (position_offset config ≤ config.max_position_embeddings →
      resolve_limits config =
        .ok (position_offset config)
          (config.max_position_embeddings - position_offset config)) ∧
    (config.max_position_embeddings < position_offset config →
      resolve_limits config = .underflow) := by
  constructor
  · intro h
    simp [resolve_limits, usize_sub, h]
  · intro h
    simp [resolve_limits, usize_sub, Nat.not_le.mpr h]

/-- Witness for `resolve_limits_unchecked`, discharging each hypothesis at
a concrete descriptor. -/
theorem resolve_limits_unchecked_witness :
    resolve_limits ⟨["BertModel"], "bert", 512, 0, none, none⟩ = .ok 0 512 ∧
    resolve_limits ⟨["RobertaModel"], "roberta", 3, 3, none, none⟩ =
      .underflow :=
  ⟨by
    have h := (resolve_limits_unchecked
      ⟨["BertModel"], "bert", 512, 0, none, none⟩).1 (by decide)
    simpa using h,
   (resolve_limits_unchecked
      ⟨["RobertaModel"], "roberta", 3, 3, none, none⟩).2 (by decide)⟩

/-- Claim C5: `position_offset` equals `pad_token_id + 1` exactly when the
model type belongs to the fixed static allow-list and 0 otherwise;
`max_input_length` equals the declared capacity minus the offset; capacity
514 with `pad_token_id` 1 gives 512 for an allow-listed model type and 514
for any other. -/
theorem position_offset_allow_list (config : ModelConfig) :
    (position_offset config =
      if config.model_type ∈ offset_model_types then config.pad_token_id + 1
      else 0) ∧
    (position_offset config ≤ config.max_position_embeddings →
      resolve_limits config =
        .ok (position_offset config)
          (config.max_position_embeddings - position_offset config)) ∧
    resolve_limits ⟨["XLMRobertaModel"], "xlm-roberta", 514, 1, none, none⟩ =
      .ok 2 512 ∧
    resolve_limits ⟨["BertModel"], "bert", 514, 1, none, none⟩ =
      .ok 0 514 := by
  refine ⟨?_, ?_, rfl, rfl⟩
  · simp [position_offset, offset_model_types, List.mem_cons]
  · intro h
    simp [resolve_limits, usize_sub, h]

/-- Witness for `position_offset_allow_list`, discharging its hypothesis at
a concrete descriptor. -/
theorem position_offset_allow_list_witness :
    resolve_limits ⟨["CamembertModel"], "camembert", 514, 1, none, none⟩ =
      .ok 2 512 :=
  by
    have h := (position_offset_allow_list
      ⟨["CamembertModel"], "camembert", 514, 1, none, none⟩).2.1 (by decide)
    simpa using h

/-! ## Bootstrap sequence (src/lambda/src/main.rs, lines 62-167)

`setup_infer` runs a fixed sequence of steps, each fallible step aborting
the whole bootstrap on failure (via `?`/`context`, or via `expect` for the
tokenizer load, which panics).  The model records the steps reached, in
program order, together with the outcome, with one oracle boolean per
fallible collaborator call. -/

/-- The externally visible steps of `setup_infer`, in program order. -/
inductive SetupStep
  | downloadArtifacts
  | readConfig
  | parseConfig
  | loadTokenizer
  | buildBackend
  | healthCheck
  | buildQueue
  | buildInfer
deriving DecidableEq

/-- Oracle outcomes for the fallible collaborator calls of `setup_infer`. -/
structure SetupEnv where
  download_ok : Bool
  read_config_ok : Bool
  parse_config_ok : Bool
  tokenizer_ok : Bool
  backend_ok : Bool
  health_ok : Bool
deriving DecidableEq

/-- How `setup_infer` ends: returning `Ok(infer)`, returning an error via
`?`, or panicking (the tokenizer load uses `expect`). -/
inductive SetupResult
  | ready
  | failed
  | panicked
deriving DecidableEq

/-- Mirrors the control flow of `setup_infer` (main.rs lines 62-167): the
trace lists the steps reached in program order; the first failing step
aborts with `failed` (or `panicked` for the tokenizer `expect`), and only
after a successful health check are the queue and the `Infer` engine
constructed. -/
def setup_infer (env : SetupEnv) : List SetupStep × SetupResult :=
  if env.download_ok = false then ([.downloadArtifacts], .failed)
  else if env.read_config_ok = false then
    ([.downloadArtifacts, .readConfig], .failed)
  else if env.parse_config_ok = false then
    ([.downloadArtifacts, .readConfig, .parseConfig], .failed)
  else if env.tokenizer_ok = false then
    ([.downloadArtifacts, .readConfig, .parseConfig, .loadTokenizer],
      .panicked)
  else if env.backend_ok = false then
    ([.downloadArtifacts, .readConfig, .parseConfig, .loadTokenizer,
      .buildBackend], .failed)
  else if env.health_ok = false then
    ([.downloadArtifacts, .readConfig, .parseConfig, .loadTokenizer,
      .buildBackend, .healthCheck], .failed)
  else
    ([.downloadArtifacts, .readConfig, .parseConfig, .loadTokenizer,
      .buildBackend, .healthCheck, .buildQueue, .buildInfer], .ready)

/-- Claim C6: the bootstrap never produces a ready engine while the backend
is unhealthy: a `ready` outcome implies the health probe succeeded; a
failed probe yields a `failed` outcome with neither queue nor engine
constructed; and whenever the engine is constructed, the health check
appears strictly before the queue and the engine in the trace. -/
theorem setup_infer_health_before_ready (d r p t b h : Bool) :
    ((setup_infer ⟨d, r, p, t, b, h⟩).2 = .ready → h = true) ∧
    (h = false →
      (setup_infer ⟨d, r, p, t, b, h⟩).2 ≠ .ready ∧
      SetupStep.buildQueue ∉ (setup_infer ⟨d, r, p, t, b, h⟩).1 ∧
      SetupStep.buildInfer ∉ (setup_infer ⟨d, r, p, t, b, h⟩).1) ∧
    (SetupStep.buildInfer ∈ (setup_infer ⟨d, r, p, t, b, h⟩).1 →
      SetupStep.healthCheck ∈ (setup_infer ⟨d, r, p, t, b, h⟩).1 ∧
      List.indexOf SetupStep.healthCheck (setup_infer ⟨d, r, p, t, b, h⟩).1 <
        List.indexOf SetupStep.buildQueue (setup_infer ⟨d, r, p, t, b, h⟩).1 ∧
      List.indexOf SetupStep.healthCheck (setup_infer ⟨d, r, p, t, b, h⟩).1 <
        List.indexOf SetupStep.buildInfer (setup_infer ⟨d, r, p, t, b, h⟩).1) := by
  cases d <;> cases r <;> cases p <;> cases t <;> cases b <;> cases h <;>
    decide

/-- Witness for `setup_infer_health_before_ready`, discharging its
hypotheses on an all-successful run and on a run with a failing health
probe. -/
theorem setup_infer_health_before_ready_witness :
    ((setup_infer ⟨true, true, true, true, true, false⟩).2 ≠ .ready ∧
      SetupStep.buildQueue ∉
        (setup_infer ⟨true, true, true, true, true, false⟩).1 ∧
      SetupStep.buildInfer ∉
        (setup_infer ⟨true, true, true, true, true, false⟩).1) ∧
    SetupStep.healthCheck ∈
      (setup_infer ⟨true, true, true, true, true, true⟩).1 ∧
    true = true :=
  ⟨(setup_infer_health_before_ready true true true true true false).2.1 rfl,
   ((setup_infer_health_before_ready true true true true true true).2.2
      (by decide)).1,
   (setup_infer_health_before_ready true true true true true true).1
      (by decide)⟩

/-! ## Tokenizer patch (src/lambda/src/main.rs, lines 93-112)

Model of the `tokenizers` crate pieces the patch touches: the metaspace
`PrependScheme`, the `Metaspace` pre-tokenizer, the `PreTokenizerWrapper`
enum (a composite `Sequence` member may itself be any wrapper, including a
nested sequence), and the tokenizer state the patch reads and writes (the
active pre-tokenizer and the padding parameters). -/

/-- Mirrors `tokenizers::decoders::metaspace::PrependScheme`. -/
inductive PrependScheme
  | always
  | first
  | never
deriving DecidableEq

/-- Mirrors the `Metaspace` pre-tokenizer configuration. -/
structure Metaspace where
  replacement : Char
  add_prefix_space : Bool
  prepend_scheme : PrependScheme
deriving DecidableEq

/-- Mirrors `Metaspace::set_prepend_scheme`. -/
def set_prepend_scheme (m : Metaspace) (scheme : PrependScheme) : Metaspace :=
  { m with prepend_scheme := scheme }

/-- Mirrors `PreTokenizerWrapper`: the variants the patch distinguishes,
plus representatives for the remaining variants of the crate enum. -/
inductive PreTokenizerWrapper
  | metaspace (m : Metaspace)
  | sequence (pre_tokenizers : List PreTokenizerWrapper)
  | whitespace
  | byteLevel
  | other (name : String)

/-- Mirrors the `PaddingParams` the tokenizer may carry; its contents are
irrelevant to the patch, which only clears them. -/
structure PaddingParams where
  pad_id : Nat
deriving DecidableEq

/-- The tokenizer state read and written by the patch: the active
pre-tokenizer (`get_pre_tokenizer` / `with_pre_tokenizer`) and the padding
parameters (`with_padding`). -/
structure TokenizerState where
  pre_tokenizer : Option PreTokenizerWrapper
  padding : Option PaddingParams

/-- The body of the `for pre_tokenizer in s.get_pre_tokenizers_mut()` loop
(main.rs lines 103-107): a metaspace member gets its prepend scheme set to
`First`, any other member is left as-is. -/
def patch_member (pt : PreTokenizerWrapper) : PreTokenizerWrapper :=
  match pt with
  | .metaspace m => .metaspace (set_prepend_scheme m .first)
  | other => other

/-- The pre-tokenizer part of the patch (main.rs lines 94-110): a top-level
metaspace gets scheme `First`; a composite sequence has the loop applied to
its members; any other pre-tokenizer (or none) is untouched. -/
def patch_pre_tokenizer : Option PreTokenizerWrapper →
    Option PreTokenizerWrapper
  | some (.metaspace m) => some (.metaspace (set_prepend_scheme m .first))
  | some (.sequence s) => some (.sequence (s.map patch_member))
  | pt => pt

/-- The whole tokenizer patch of main.rs lines 93-112: the pre-tokenizer
fix followed by `tokenizer.with_padding(None)`. -/
def patch_tokenizer (t : TokenizerState) : TokenizerState :=
  { pre_tokenizer := patch_pre_tokenizer t.pre_tokenizer, padding := none }

/-- Claim C7: when the pre-tokenizer is a composite sequence, the patch
produces a sequence of the same length in which, member by member in
order, every metaspace member has its prepend scheme set to `First` and
every non-metaspace member is unchanged. -/
theorem patch_sequence_members (s : List PreTokenizerWrapper) :
    ∃ s', patch_pre_tokenizer (some (.sequence s)) = some (.sequence s') ∧
      List.Forall₂ (fun a b =>
        (∀ m, a = .metaspace m → b = .metaspace (set_prepend_scheme m .first)) ∧
        ((∀ m, a ≠ .metaspace m) → b = a)) s s' := by
  refine ⟨s.map patch_member, rfl, ?_⟩
  induction s with
  | nil => exact List.Forall₂.nil
  | cons head tail ih =>
    refine List.Forall₂.cons ⟨?_, ?_⟩ ih
    · intro m hm
      subst hm
      rfl
    · intro hm
      cases head with
      | metaspace m => exact absurd rfl (hm m)
      | sequence s => rfl
      | whitespace => rfl
      | byteLevel => rfl
      | other n => rfl

/-- Witness for `patch_sequence_members` at a concrete composite
pre-tokenizer holding one metaspace and one whitespace member. -/
theorem patch_sequence_members_witness :
    ∃ s', patch_pre_tokenizer
        (some (.sequence [.metaspace ⟨' ', true, .always⟩, .whitespace])) =
      some (.sequence s') ∧
      List.Forall₂ (fun a b =>
        (∀ m, a = .metaspace m → b = .metaspace (set_prepend_scheme m .first)) ∧
        ((∀ m, a ≠ .metaspace m) → b = a))
        [.metaspace ⟨' ', true, .always⟩, .whitespace] s' :=
  patch_sequence_members [.metaspace ⟨' ', true, .always⟩, .whitespace]

theorem patch_member_idem (pt : PreTokenizerWrapper) :
    patch_member (patch_member pt) = patch_member pt := by
  cases pt <;> rfl

/-- Claim C8: the tokenizer patch is idempotent — applying it twice yields
the same tokenizer state (pre-tokenizer prepend-scheme state and padding
state) as applying it once. -/
theorem patch_tokenizer_idem (t : TokenizerState) :
    patch_tokenizer (patch_tokenizer t) = patch_tokenizer t := by
  have hpre : ∀ pt, patch_pre_tokenizer (patch_pre_tokenizer pt) =
      patch_pre_tokenizer pt := by
    intro pt
    match pt with
    | none => rfl
    | some (.metaspace m) => rfl
    | some (.sequence s) =>
      simp only [patch_pre_tokenizer, Option.some.injEq,
        PreTokenizerWrapper.sequence.injEq, List.map_map]
      exact (List.map_congr_left fun x _ => patch_member_idem x)
    | some .whitespace => rfl
    | some .byteLevel => rfl
    | some (.other n) => rfl
  show TokenizerState.mk
      (patch_pre_tokenizer (patch_pre_tokenizer t.pre_tokenizer)) none =
    TokenizerState.mk (patch_pre_tokenizer t.pre_tokenizer) none
  rw [hpre]

/-! ## Request structs and serde defaults (src/router/src/lib.rs, lines
252-261, 278-283 and 324-341)

Serde fills an omitted field marked `#[serde(default)]` with
`Default::default()` (`false` for `bool`) and an omitted field marked
`#[serde(default = "default_normalize")]` with `default_normalize()`; a
key that matches no struct field is ignored.  The deserializers below take
each optional field as `Option Bool` (`none` = key absent) and mirror that
behaviour. -/

/-- Mirrors `enum Input { Single(String), Batch(Vec<String>) }`. -/
inductive Input
  | single (s : String)
  | batch (b : List String)
deriving DecidableEq

/-- Mirrors `fn default_normalize() -> bool { true }` (lib.rs 335-337). -/
def default_normalize : Bool := true

/-- Mirrors `struct EmbedRequest` (lib.rs lines 324-333). -/
structure EmbedRequest where
  inputs : Input
  truncate : Bool
  normalize : Bool
deriving DecidableEq

/-- Deserialization of `EmbedRequest`: `truncate` is `#[serde(default)]`,
`normalize` is `#[serde(default = "default_normalize")]`. -/
def embed_request_deserialize (inputs : Input)
    (truncate normalize : Option Bool) : EmbedRequest :=
  { inputs := inputs
    truncate := truncate.getD false
    normalize := normalize.getD default_normalize }

/-- Mirrors `struct PredictRequest` (lib.rs lines 252-261); it has fields
`inputs`, `truncate` and `raw_scores` only — no `normalize` field. -/
structure PredictRequest where
  inputs : PredictInput
  truncate : Bool
  raw_scores : Bool
deriving DecidableEq

/-- Deserialization of `PredictRequest`: `truncate` and `raw_scores` are
both `#[serde(default)]`; a `normalize` key in the payload matches no
field of the struct and is ignored. -/
def predict_request_deserialize (inputs : PredictInput)
    (truncate raw_scores _normalize : Option Bool) : PredictRequest :=
  { inputs := inputs
    truncate := truncate.getD false
    raw_scores := raw_scores.getD false }

/-- Claim C9: with the optional fields omitted, an embedding request gets
`truncate = false` and `normalize = true`; a prediction request gets
`truncate = false` and `raw_scores = false`; and a prediction request has
no normalize field at all — whatever `normalize` value accompanies the
payload, deserialization yields the same request. -/
theorem request_defaults (ei : Input) (pi : PredictInput)
    (t r n n' : Option Bool) :
    embed_request_deserialize ei none none = ⟨ei, false, true⟩ ∧
    predict_request_deserialize pi none none n = ⟨pi, false, false⟩ ∧
    predict_request_deserialize pi t r n = predict_request_deserialize pi t r n' :=
  ⟨rfl, rfl, rfl⟩

/-! ## Lambda request handler (src/lambda/src/main.rs, lines 27-50)

The handler is modelled against an oracle for the `Infer` collaborator:
whether `try_acquire_permit` succeeds, and what `infer.embed` returns for a
given input and flag pair.  The type of a result vector is an arbitrary
type parameter — its contents never matter to the handler. -/

/-- Oracle for the `Infer` engine as the handler consumes it. -/
structure InferOracle (V : Type) where
  try_acquire_permit_ok : Bool
  embed : String → Bool → Bool → Except String V

/-- How a handler invocation ends: a panic from the unchecked
`event.payload.inputs[0]` index, an error return, or an `EmbedResponse`
wrapping a list of result vectors. -/
inductive HandlerOutcome (V : Type)
  | indexPanic
  | err (e : String)
  | ok (response : List V)

/-- Mirrors `handler` (main.rs lines 35-50): index 0 of `inputs` is read
without a guard (panic on an empty vec); `truncate` is fixed to `false`
and `normalize` to `true`; a permit failure or embed failure is returned
as an error; on success the response is `vec![response.results]`. -/
def handler {V : Type} (infer : InferOracle V) (inputs : List String) :
    HandlerOutcome V :=
  match inputs with
  | [] => .indexPanic
  | input :: _ =>
    if infer.try_acquire_permit_ok = false then .err "Could not acquire permit"
    else
      match infer.embed input false true with
      | .error e => .err e
      | .ok results => .ok [results]

/-- Claim C10: the handler reads element 0 of `inputs` unguarded — an empty
list panics; a non-empty list is handled exactly like the one-element list
holding its head (everything past the first element is ignored), the first
element is embedded with `truncate = false` and `normalize = true`, and a
successful response holds exactly one result vector. -/
theorem handler_first_input_only {V : Type} (infer : InferOracle V)
    (inputs : List String) :
    (inputs = [] → handler infer inputs = .indexPanic) ∧
    (∀ x rest, inputs = x :: rest →
      handler infer inputs = handler infer [x] ∧
      ∀ r, handler infer inputs = .ok r →
        ∃ v, infer.embed x false true = .ok v ∧ r = [v]) := by
  constructor
  · intro h
    rw [h]
    rfl
  · intro x rest h
    subst h
    refine ⟨rfl, ?_⟩
    intro r hr
    by_cases hp : infer.try_acquire_permit_ok = false
    · rw [show handler infer (x :: rest) = .err "Could not acquire permit" by
        simp [handler, hp]] at hr
      exact absurd hr (by simp)
    · cases he : infer.embed x false true with
      | error e =>
        rw [show handler infer (x :: rest) = .err e by
          simp [handler, hp, he]] at hr
        exact absurd hr (by simp)
      | ok v =>
        refine ⟨v, rfl, ?_⟩
        rw [show handler infer (x :: rest) = .ok [v] by
          simp [handler, hp, he]] at hr
        cases hr
        rfl

/-- Witness for `handler_first_input_only` on a concrete oracle, an empty
request and a two-element request. -/
theorem handler_first_input_only_witness :
    handler ⟨true, fun _ _ _ => .ok (7 : Nat)⟩ [] = .indexPanic ∧
    handler ⟨true, fun _ _ _ => .ok (7 : Nat)⟩ ["a", "b"] =
      handler ⟨true, fun _ _ _ => .ok (7 : Nat)⟩ ["a"] ∧
    ∃ v, (InferOracle.mk true fun _ _ _ => .ok (7 : Nat)).embed "a" false true =
        .ok v ∧ ([7] : List Nat) = [v] :=
  ⟨(handler_first_input_only ⟨true, fun _ _ _ => .ok (7 : Nat)⟩ []).1 rfl,
   ((handler_first_input_only ⟨true, fun _ _ _ => .ok (7 : Nat)⟩
      ["a", "b"]).2 "a" ["b"] rfl).1,
   ((handler_first_input_only ⟨true, fun _ _ _ => .ok (7 : Nat)⟩
      ["a", "b"]).2 "a" ["b"] rfl).2 [7] rfl⟩

end TEI
